import Mathlib

/-!
Verification development for the `weather` MCP tool server (src/weather.py).

The Python module is embedded shallowly:

* JSON values decoded from HTTP responses become the inductive `Json`
  (Python dicts are association lists, numbers are `Rat`).
* Python exceptions become the `Except PyErr` monad `Py`; a tool body that
  raises an uncaught exception evaluates to `Except.error`.
* Each outbound HTTP call is an oracle value of type `Upstream`: a
  transport or status error (caught by httpx exception handlers), a 2xx
  response whose body is not decodable JSON (decoding raises), or a decoded
  JSON body.
* `get_forecast` also returns the ordered list of provider calls it made,
  so that claims about which provider is queried can be stated.
-/

namespace Weather

/-- A decoded JSON value, as the Python `response.json()` result.
Python dicts are modelled as association lists in insertion order;
JSON numbers are modelled as rationals. -/
inductive Json where
  | null
  | bool (b : Bool)
  | num (q : Rat)
  | str (s : String)
  | arr (xs : List Json)
  | obj (kvs : List (String × Json))

/-- Python exceptions that the modelled code can raise. -/
inductive PyErr where
  | keyError (k : String)
  | typeError
  | indexError
  | valueError
  | attributeError
deriving DecidableEq

/-- Computations that may raise a Python exception. -/
abbrev Py (α : Type) := Except PyErr α

/-- Python truthiness of a JSON value (`if data:`). -/
def Json.truthy : Json → Bool
  | .null => false
  | .bool b => b
  | .num q => decide (q ≠ 0)
  | .str s => !s.isEmpty
  | .arr xs => !xs.isEmpty
  | .obj kvs => !kvs.isEmpty

/-- Python truthiness of an optional value (`None` is falsy). -/
def optTruthy : Option Json → Bool
  | none => false
  | some j => j.truthy

/-- Python subscript `j[k]` with a string key: dict lookup raising
`KeyError` when the key is missing, `TypeError` on non-dict values. -/
def Json.getItem (j : Json) (k : String) : Py Json :=
  match j with
  | .obj kvs =>
    match kvs.lookup k with
    | some v => .ok v
    | none => .error (.keyError k)
  | _ => .error .typeError

/-- Python `j.get(k, d)`: total on dicts, `AttributeError` elsewhere. -/
def Json.get (j : Json) (k : String) (d : Json) : Py Json :=
  match j with
  | .obj kvs => .ok ((kvs.lookup k).getD d)
  | _ => .error .attributeError

/-- Python `k in j` for a string `k`: key test on dicts, membership on
lists, substring test on strings, `TypeError` elsewhere. -/
def Json.containsKey (j : Json) (k : String) : Py Bool :=
  match j with
  | .obj kvs => .ok (kvs.lookup k).isSome
  | .arr xs => .ok (xs.any fun x => match x with | .str t => t == k | _ => false)
  | .str s => .ok ((s.splitOn k).length != 1)
  | _ => .error .typeError

/-- Python equality test of a JSON value against a string literal
(`data.get(k) == "lit"`): true exactly on that string, never raises. -/
def Json.isStrEq (j : Json) (s : String) : Bool :=
  match j with
  | .str t => t == s
  | _ => false

/-- Python subscript `j[i]` with a non-negative integer index. -/
def Json.index (j : Json) (i : Nat) : Py Json :=
  match j with
  | .arr xs =>
    match xs.get? i with
    | some v => .ok v
    | none => .error .indexError
  | .str s =>
    match s.data.get? i with
    | some c => .ok (.str (String.mk [c]))
    | none => .error .indexError
  | .obj _ => .error (.keyError (toString i))
  | _ => .error .typeError

/-- Python slice `j[:n]` on lists and strings, `TypeError` elsewhere. -/
def pySliceTo (j : Json) (n : Nat) : Py Json :=
  match j with
  | .arr xs => .ok (.arr (xs.take n))
  | .str s => .ok (.str (String.mk (s.data.take n)))
  | _ => .error .typeError

/-- Python `len(j)` on containers, `TypeError` elsewhere. -/
def pyLen (j : Json) : Py Nat :=
  match j with
  | .arr xs => .ok xs.length
  | .str s => .ok s.length
  | .obj kvs => .ok kvs.length
  | _ => .error .typeError

/-- Python `a + b` restricted to the homogeneous cases the source can hit:
list, string or number concatenation/addition, `TypeError` elsewhere. -/
def pyAdd (a b : Json) : Py Json :=
  match a, b with
  | .arr xs, .arr ys => .ok (.arr (xs ++ ys))
  | .str s, .str t => .ok (.str (s ++ t))
  | .num p, .num q => .ok (.num (p + q))
  | _, _ => .error .typeError

/-- Python iteration `for x in j`: list elements, string characters,
dict keys; `TypeError` on non-iterables. -/
def jsonIter (j : Json) : Py (List Json) :=
  match j with
  | .arr xs => .ok xs
  | .str s => .ok (s.data.map fun c => .str (String.mk [c]))
  | .obj kvs => .ok (kvs.map fun kv => .str kv.1)
  | _ => .error .typeError

/-- Left-to-right mapping with Python exception propagation, as a list
comprehension or accumulation loop evaluates. -/
def mapPy {α : Type} (f : α → Py String) : List α → Py (List String)
  | [] => .ok []
  | x :: xs => do
    let b ← f x
    let bs ← mapPy f xs
    pure (b :: bs)

/-- String rendering of a JSON value inside an f-string. The rendering of
numbers is abstracted to a canonical form (integers print without a
fractional part); no claim depends on the text of a rendered number, and
container reprs are likewise abstracted. -/
def pyStr : Json → String
  | .null => "None"
  | .bool true => "True"
  | .bool false => "False"
  | .num q => if q.den = 1 then toString q.num else toString q
  | .str s => s
  | .arr _ => "<list>"
  | .obj _ => "<dict>"

/-- Digit-string value, `none` when empty or containing a non-digit. -/
def digitsVal (cs : List Char) : Option Nat :=
  if cs.isEmpty then none
  else if cs.all Char.isDigit then
    some (cs.foldl (fun a c => a * 10 + (c.toNat - 48)) 0)
  else none

/-- Unsigned decimal literal `intpart[.fracpart]` as a numerator and a
power-of-ten denominator: the value is `i + f / 10 ^ k` written as the
single fraction `(i * 10 ^ k + f) / 10 ^ k`. -/
def parseUnsignedFloat (cs : List Char) : Option (Nat × Nat) :=
  let a := cs.takeWhile fun c => c ≠ '.'
  match cs.dropWhile fun c => c ≠ '.' with
  | [] => (digitsVal a).map fun n => (n, 1)
  | _ :: b =>
    if b.any fun c => c = '.' then none
    else if a.isEmpty && b.isEmpty then none
    else
      match (if a.isEmpty then some 0 else digitsVal a),
            (if b.isEmpty then some 0 else digitsVal b) with
      | some i, some f => some (i * 10 ^ b.length + f, 10 ^ b.length)
      | _, _ => none

/-- Models the Python `float` builtin on plain decimal literals: optional
sign, digits, optional fractional part. Exponents, infinities, nan and
surrounding whitespace are outside the modelled fragment and map to
`none` (a `ValueError`). -/
def parsePyFloat (s : String) : Option Rat :=
  match s.data with
  | '-' :: rest => (parseUnsignedFloat rest).map fun p => mkRat (-(p.1 : Int)) p.2
  | '+' :: rest => (parseUnsignedFloat rest).map fun p => mkRat p.1 p.2
  | cs => (parseUnsignedFloat cs).map fun p => mkRat p.1 p.2

/-- Python `float(j)`: numbers pass through, booleans coerce, strings are
parsed (`ValueError` on failure), other values raise `TypeError`. -/
def pyFloat (j : Json) : Py Rat :=
  match j with
  | .num q => .ok q
  | .bool b => .ok (if b then 1 else 0)
  | .str s =>
    match parsePyFloat s with
    | some q => .ok q
    | none => .error .valueError
  | _ => .error .typeError

/-- Outcome of one outbound HTTP GET, from the point of view of the code
after `client.get`, `raise_for_status` and `response.json()`:
`httpErr` is any httpx transport error or non-success status (the string
is the exception text), `badBody` is a success status whose body fails
JSON decoding (decoding raises a non-httpx error), `body` is the decoded
JSON body. -/
inductive Upstream where
  | httpErr (e : String)
  | badBody
  | body (j : Json)

/-! Module constants of src/weather.py. -/

def NWS_API_BASE : String := "https://api.weather.gov"

def OPENMETEO_API_BASE : String := "https://api.open-meteo.com/v1"

def IPLOC_API_BASE : String := "http://ip-api.com/json/"

def GOOGLEFL_API_BASE : String := "https://serpapi.com/search?engine=google_flights"

def USER_AGENT : String := "weather-app/1.0"

/-- `TODAY_DATE = date.today().isoformat()+""`: evaluated once at module
import; its value is the ISO date of process startup, passed here as a
parameter. It does not change between later tool invocations. -/
def TODAY_DATE (startup_iso : String) : String := startup_iso ++ ""

/-- `make_nws_request`: the `try` block catches every exception raised by
the request, the status check and the JSON decoding, returning `None`;
a decoded body is returned unchanged. -/
def make_nws_request (o : Upstream) : Option Json :=
  match o with
  | .httpErr _ => none
  | .badBody => none
  | .body j => some j

/-- `format_alert`: reads `feature["properties"]` by subscript (may raise
`KeyError` or `TypeError`), then each field with a defaulted `.get`. -/
def format_alert (feature : Json) : Py String := do
  let props ← feature.getItem "properties"
  let ev ← props.get "event" (.str "Unknown")
  let ar ← props.get "areaDesc" (.str "Unknown")
  let sv ← props.get "severity" (.str "Unknown")
  let de ← props.get "description" (.str "No description available")
  let ins ← props.get "instruction" (.str "No specific instructions provided")
  pure ("\nEvent: " ++ pyStr ev ++ "\nArea: " ++ pyStr ar ++ "\nSeverity: "
    ++ pyStr sv ++ "\nDescription: " ++ pyStr de ++ "\nInstructions: "
    ++ pyStr ins ++ "\n")

/-- `make_openmeteo_request`: same catch-all error handling as
`make_nws_request`; any exception yields `None`. -/
def make_openmeteo_request (o : Upstream) : Option Json :=
  match o with
  | .httpErr _ => none
  | .badBody => none
  | .body j => some j

/-- `format_openmeteo_forecast`: header from `current_weather`, then up to
three daily lines indexed into the `daily` arrays by subscript. -/
def format_openmeteo_forecast (data : Json) : Py String := do
  let current ← data.get "current_weather" (.obj [])
  let daily ← data.get "daily" (.obj [])
  let t ← current.get "temperature" (.str "N/A")
  let ws ← current.get "windspeed" (.str "N/A")
  let wd ← current.get "winddirection" (.str "N/A")
  let wc ← current.get "weathercode" (.str "N/A")
  let header := "\nCurrent Weather:\nTemperature: " ++ pyStr t
    ++ "°C\nWind: " ++ pyStr ws ++ " km/h from " ++ pyStr wd
    ++ "°\nWeather Code: " ++ pyStr wc
    ++ " (see https://open-meteo.com/en/docs for codes)\n\nNext 3 Days Forecast:\n"
  let times ← daily.get "time" (.arr [])
  let n ← pyLen times
  let lines ← mapPy (fun i => do
    let tArr ← daily.getItem "time"
    let dt ← tArr.index i
    let mxArr ← daily.getItem "temperature_2m_max"
    let mx ← mxArr.index i
    let mnArr ← daily.getItem "temperature_2m_min"
    let mn ← mnArr.index i
    let cdArr ← daily.getItem "weathercode"
    let cd ← cdArr.index i
    pure (pyStr dt ++ ": High " ++ pyStr mx ++ "°C, Low " ++ pyStr mn
      ++ "°C, Code " ++ pyStr cd ++ "\n")) (List.range (Nat.min 3 n))
  pure (header ++ String.join lines)

/-- `make_iploc_request`: only httpx transport/status errors are caught
(returning `None`); a JSON decoding failure raises out of the helper, and
attribute errors from `.get` on a non-dict body also propagate. On a
`success` status the city field is read with default `"Antibes"`. -/
def make_iploc_request (o : Upstream) : Py (Option Json) :=
  match o with
  | .httpErr _ => .ok none
  | .badBody => .error .valueError
  | .body data => do
    let st ← data.get "status" .null
    if st.isStrEq "success" then do
      let c ← data.get "city" (.str "Antibes")
      pure (some c)
    else
      pure none

/-- The geocoding result dict built by `make_geocode_request`:
`{"latitude": float(...), "longitude": float(...), "display_name": ...}`. -/
structure GeocodeOut where
  latitude : Rat
  longitude : Rat
  display_name : Json

/-- `make_geocode_request`: the `try` block catches every exception
(transport, status, decoding, `float` conversion, key access), returning
`None`; an empty decoded body also yields `None`; otherwise the first
match is read, with the display name looked up under the misspelled key
`diplay_name` as in the source. -/
def make_geocode_request (o : Upstream) : Option GeocodeOut :=
  match o with
  | .httpErr _ => none
  | .badBody => none
  | .body data =>
    let r : Py (Option GeocodeOut) := do
      if data.truthy then do
        let item ← data.index 0
        let latJ ← item.getItem "lat"
        let lat ← pyFloat latJ
        let lonJ ← item.getItem "lon"
        let lon ← pyFloat lonJ
        let dn ← item.get "diplay_name" .null
        pure (some ⟨lat, lon, dn⟩)
      else
        pure none
    match r with
    | .error _ => none
    | .ok v => v

/-- Return value of the `geocode_city` tool: the result dict or the
error string (the Python function returns `dict | str`). -/
inductive GeoReturn where
  | result (g : GeocodeOut)
  | msg (s : String)

/-- Tool `geocode_city`: a `None` helper result becomes the error string,
otherwise the (always truthy) result dict is returned. -/
def geocode_city (o : Upstream) : GeoReturn :=
  match make_geocode_request o with
  | none => .msg "Unable to geocode the provided location."
  | some r => .result r

/-- Tool `get_alerts`: `if not data or "features" not in data` with
short-circuit evaluation, then the empty/nonempty split on `features`,
then one `format_alert` per feature joined with a fixed separator. -/
def get_alerts (state : String) (o : Upstream) : Py String :=
  let _url := NWS_API_BASE ++ "/alerts/active/area/" ++ state
  match make_nws_request o with
  | none => .ok "Unable to fetch alerts or no alerts found."
  | some d =>
    if d.truthy then do
      let hasF ← d.containsKey "features"
      if hasF then do
        let feats ← d.getItem "features"
        if feats.truthy then do
          let items ← jsonIter feats
          let alerts ← mapPy format_alert items
          pure (String.intercalate "\n---\n" alerts)
        else
          pure "No active alerts for this state."
      else
        pure "Unable to fetch alerts or no alerts found."
    else
      .ok "Unable to fetch alerts or no alerts found."

/-- One outbound provider call made by `get_forecast`, in order. -/
inductive ProviderCall where
  | nwsPoints
  | nwsDetail (url : Json)
  | meteo

/-- Whether a provider call goes to the secondary (Open-Meteo) provider. -/
def ProviderCall.isMeteo : ProviderCall → Bool
  | .meteo => true
  | _ => false

/-- Network oracle for one `get_forecast` invocation: the outcome of the
NWS points lookup, the outcome of an NWS fetch at each forecast URL, and
the outcome of the Open-Meteo request. -/
structure ForecastNet where
  points : Upstream
  detailFor : Json → Upstream
  meteo : Upstream

/-- `points_data["properties"]["forecast"]` by subscripts. -/
def forecastUrlOf (points_data : Json) : Py Json := do
  let pr ← points_data.getItem "properties"
  pr.getItem "forecast"

/-- Lines 208-219 of the source: take `periods[:5]`, render each period
as a labelled block by subscripts, join with the fixed separator. -/
def renderPeriod (period : Json) : Py String := do
  let nm ← period.getItem "name"
  let tp ← period.getItem "temperature"
  let tu ← period.getItem "temperatureUnit"
  let ws ← period.getItem "windSpeed"
  let wd ← period.getItem "windDirection"
  let df ← period.getItem "detailedForecast"
  pure ("\n    " ++ pyStr nm ++ ":\n    Temperature: " ++ pyStr tp ++ "°"
    ++ pyStr tu ++ "\n    Wind: " ++ pyStr ws ++ " " ++ pyStr wd
    ++ "\n    Forecast: " ++ pyStr df ++ "\n    ")

/-- Rendering of a truthy NWS detailed-forecast body. -/
def renderNwsForecast (forecast_data : Json) : Py String := do
  let pr ← forecast_data.getItem "properties"
  let periods ← pr.getItem "periods"
  let sliced ← pySliceTo periods 5
  let items ← jsonIter sliced
  let forecasts ← mapPy renderPeriod items
  pure (String.intercalate "\n---\n" forecasts)

/-- Fallback branch of `get_forecast` (lines 220-225): one Open-Meteo
request; truthy body rendered, anything else the final failure string. -/
def get_forecastFallback (net : ForecastNet) : Py String × List ProviderCall :=
  let calls := [ProviderCall.nwsPoints, ProviderCall.meteo]
  match make_openmeteo_request net.meteo with
  | none => (.ok "Unable to fetch forecast data from any provider.", calls)
  | some om =>
    if om.truthy then (format_openmeteo_forecast om, calls)
    else (.ok "Unable to fetch forecast data from any provider.", calls)

/-- Tool `get_forecast`, paired with the ordered list of provider calls
it makes. A truthy points body enters the primary branch: the forecast
URL is read by subscript (an exception here escapes before any further
call), the detail fetch failing or falsy returns the detailed-forecast
failure string, and a truthy detail body is rendered. A falsy or absent
points body goes to the fallback branch. -/
def get_forecast (net : ForecastNet) : Py String × List ProviderCall :=
  match make_nws_request net.points with
  | some pd =>
    if pd.truthy then
      match forecastUrlOf pd with
      | .error e => (.error e, [ProviderCall.nwsPoints])
      | .ok forecast_url =>
        let calls := [ProviderCall.nwsPoints, ProviderCall.nwsDetail forecast_url]
        match make_nws_request (net.detailFor forecast_url) with
        | none => (.ok "Unable to fetch detailed forecast.", calls)
        | some fd =>
          if fd.truthy then (renderNwsForecast fd, calls)
          else (.ok "Unable to fetch detailed forecast.", calls)
    else get_forecastFallback net
  | none => get_forecastFallback net

/-- Tool `get_current_location`: `None` or a falsy city value becomes the
error string, otherwise the city value is returned as is. A decoding or
attribute error raised inside the helper escapes the tool. -/
def get_current_location (o : Upstream) : Py Json := do
  let result ← make_iploc_request o
  match result with
  | none => pure (.str "Unable to geocode the user location.")
  | some c =>
    if c.truthy then pure c
    else pure (.str "Unable to geocode the user location.")

/-- The query parameters built by `get_flights` (lines 247-255); the
outbound date is the module constant `TODAY_DATE`. -/
def get_flights_params (serpapi_key today_date dept_iata arr_iata : String) :
    List (String × Json) :=
  [("api_key", .str serpapi_key),
   ("engine", .str "google_flights"),
   ("departure_id", .str dept_iata),
   ("arrival_id", .str arr_iata),
   ("type", .num 2),
   ("outbound_date", .str today_date),
   ("sort_by", .num 2)]

/-- Outbound date used by a `get_flights` call: the code reads the module
constant `TODAY_DATE`, fixed at startup, so the calendar date at the
moment of invocation (second argument) is not consulted. -/
def get_flights_outbound_date (startup_iso invocation_iso : String) : String :=
  let _ := invocation_iso
  TODAY_DATE startup_iso

/-- One rendered flight block (lines 269-284): only the first segment of
the offer is read, with defaults as in the source. -/
def renderFlightOffer (data offer : Json) : Py String := do
  let flights ← offer.get "flights" (.arr [.obj []])
  let first_segment ← flights.index 0
  let airline ← first_segment.get "airline" .null
  let flight_num ← first_segment.get "flight_number" .null
  let depAirport ← first_segment.get "departure_airport" (.obj [])
  let dep_time ← depAirport.get "time" .null
  let price ← offer.get "price" .null
  let dur ← offer.get "total_duration" .null
  let sp ← data.get "search_parameters" (.obj [])
  let cur ← sp.get "currency" (.str "EUR")
  pure (" \n                            Flight: " ++ pyStr airline ++ " "
    ++ pyStr flight_num ++ "\n                            Departure Time: "
    ++ pyStr dep_time ++ "\n                            Total Duration: "
    ++ pyStr dur ++ " minutes\n                            Price: "
    ++ pyStr price ++ " " ++ pyStr cur ++ "\n                            ")

/-- Tool `get_flights`: httpx transport/status errors are caught and
reported as the error string; a JSON decoding failure raises out of the
tool; a decoded body is split into the two offer buckets, combined
`other` first, and rendered, or the no-flights string when the combined
list is empty. -/
def get_flights (o : Upstream) (dept_iata arr_iata : String) : Py String :=
  match o with
  | .httpErr e =>
    .ok ("Unable to fetch flight data due to a network or API error: " ++ e)
  | .badBody => .error .valueError
  | .body data => do
    let ofl ← data.get "other_flights" (.arr [])
    let bfl ← data.get "best_flights" (.arr [])
    let flight_offers ← pyAdd ofl bfl
    if flight_offers.truthy then do
      let header := "--- Active & Scheduled Flights from " ++ dept_iata
        ++ " to " ++ arr_iata ++ " ---\n"
      let offers ← jsonIter flight_offers
      let blocks ← mapPy (renderFlightOffer data) offers
      pure (String.intercalate "\n---\n" (header :: blocks))
    else
      pure ("No active or scheduled flights found between " ++ dept_iata
        ++ " and " ++ arr_iata ++ " for the current real-time window.")

/-! Helper lemmas. -/

@[simp]
lemma py_bind_ok {α β : Type} (a : α) (f : α → Py β) :
    (Except.ok a >>= f : Py β) = f a := rfl

@[simp]
lemma py_bind_error {α β : Type} (e : PyErr) (f : α → Py β) :
    (Except.error e >>= f : Py β) = .error e := rfl

@[simp]
lemma py_pure {α : Type} (a : α) : (pure a : Py α) = .ok a := rfl

lemma mapPy_length {α : Type} (f : α → Py String) :
    ∀ (l : List α) (bs : List String), mapPy f l = .ok bs → bs.length = l.length := by
  intro l
  induction l with
  | nil =>
    intro bs h
    simp [mapPy] at h
    simp [← h]
  | cons x xs ih =>
    intro bs h
    simp only [mapPy] at h
    cases hfx : f x with
    | error e => rw [hfx] at h; simp at h
    | ok b =>
      rw [hfx] at h
      cases hrest : mapPy f xs with
      | error e => rw [hrest] at h; simp at h
      | ok bs2 =>
        rw [hrest] at h
        simp at h
        have := ih bs2 hrest
        simp [← h, this]

@[simp]
lemma make_nws_request_body (j : Json) : make_nws_request (.body j) = some j := rfl

@[simp]
lemma make_nws_request_httpErr (e : String) : make_nws_request (.httpErr e) = none := rfl

@[simp]
lemma make_nws_request_badBody : make_nws_request .badBody = none := rfl

@[simp]
lemma make_openmeteo_request_body (j : Json) : make_openmeteo_request (.body j) = some j := rfl

@[simp]
lemma make_openmeteo_request_httpErr (e : String) :
    make_openmeteo_request (.httpErr e) = none := rfl

@[simp]
lemma make_openmeteo_request_badBody : make_openmeteo_request .badBody = none := rfl

lemma string_ne_of_head {a b : String} {c d : Char}
    (ha : a.data.head? = some c) (hb : b.data.head? = some d) (hcd : c ≠ d) :
    a ≠ b := by
  intro h
  subst h
  rw [ha] at hb
  exact hcd (Option.some.injEq _ _ ▸ hb)

/-! Claim theorems. -/

/-- C1: when the primary points lookup returns a usable (truthy) body
from which the forecast URL is read, and the subsequent detailed-forecast
fetch fails (no truthy body), `get_forecast` returns the string
`Unable to fetch detailed forecast.` and the secondary (Open-Meteo)
provider is never queried in that call. -/
theorem get_forecast_detail_failure_no_secondary
    (pd url : Json) (f : Json → Upstream) (om : Upstream)
    (hpd : pd.truthy = true)
    (hurl : forecastUrlOf pd = .ok url)
    (hdetail : optTruthy (make_nws_request (f url)) = false) :
    (get_forecast ⟨.body pd, f, om⟩).1 = .ok "Unable to fetch detailed forecast." ∧
    (get_forecast ⟨.body pd, f, om⟩).2.countP (fun c => c.isMeteo) = 0 := by
  cases hmk : make_nws_request (f url) with
  | none =>
    constructor <;>
      simp [get_forecast, hpd, hurl, hmk,
        List.countP_cons, ProviderCall.isMeteo]
  | some fd =>
    rw [hmk] at hdetail
    simp only [optTruthy] at hdetail
    constructor <;>
      simp [get_forecast, hpd, hurl, hmk, hdetail,
        List.countP_cons, ProviderCall.isMeteo]

/-- C1 witness: a concrete truthy points body whose detail fetch fails
while the secondary provider would have been available. -/
theorem get_forecast_detail_failure_no_secondary_witness :
    (get_forecast ⟨.body (.obj [("properties", .obj [("forecast", .str "u")])]),
        fun _ => .httpErr "down",
        .body (.obj [("current_weather", .obj [("temperature", .num 20)])])⟩).1
      = .ok "Unable to fetch detailed forecast." ∧
    (get_forecast ⟨.body (.obj [("properties", .obj [("forecast", .str "u")])]),
        fun _ => .httpErr "down",
        .body (.obj [("current_weather", .obj [("temperature", .num 20)])])⟩).2.countP
      (fun c => c.isMeteo) = 0 :=
  get_forecast_detail_failure_no_secondary
    (.obj [("properties", .obj [("forecast", .str "u")])]) (.str "u")
    (fun _ => .httpErr "down")
    (.body (.obj [("current_weather", .obj [("temperature", .num 20)])]))
    rfl rfl rfl

/-- Network oracle for the C2 counterexample: the points lookup returns a
decoded, nonempty body that lacks the expected `properties`/`forecast`
fields, while the secondary provider would answer. -/
def c2net : ForecastNet :=
  ⟨.body (.obj [("x", .num 1)]),
   fun _ => .httpErr "down",
   .body (.obj [("current_weather", .obj [("temperature", .num 20)])])⟩

/-- C2 counterexample: a primary points lookup that fails because the
response is missing the expected fields (a truthy body without
`properties`) does NOT reach the fallback: the tool raises `KeyError`
and the secondary (Open-Meteo) provider is queried zero times, not once. -/
theorem get_forecast_missing_fields_no_fallback_cex :
    (get_forecast c2net).1 = .error (.keyError "properties") ∧
    (get_forecast c2net).2.countP (fun c => c.isMeteo) = 0 :=
  ⟨rfl, rfl⟩

/-- C2 amended: whenever the primary points lookup yields no truthy body
— network error, bad status, undecodable body, or an empty decoded body —
`get_forecast` proceeds to the fallback and queries the secondary
(Open-Meteo) provider exactly once; a truthy body that is missing the
expected fields instead raises without querying the secondary. -/
theorem get_forecast_fallback_on_falsy_points
    (net : ForecastNet)
    (h : optTruthy (make_nws_request net.points) = false) :
    (get_forecast net).2 = [ProviderCall.nwsPoints, ProviderCall.meteo] ∧
    (get_forecast net).2.countP (fun c => c.isMeteo) = 1 := by
  have hfall : (get_forecastFallback net).2
      = [ProviderCall.nwsPoints, ProviderCall.meteo] := by
    unfold get_forecastFallback
    cases make_openmeteo_request net.meteo with
    | none => rfl
    | some om =>
      by_cases hom : om.truthy <;> simp [hom]
  have hsel : (get_forecast net).2 = (get_forecastFallback net).2 := by
    cases hmk : make_nws_request net.points with
    | none => simp [get_forecast, hmk]
    | some pd =>
      rw [hmk] at h
      simp only [optTruthy] at h
      simp [get_forecast, hmk, h]
  constructor
  · rw [hsel, hfall]
  · rw [hsel, hfall]
    simp [List.countP_cons, ProviderCall.isMeteo]

/-- C2 witness: a transport failure of the points lookup reaches the
fallback with exactly one secondary-provider query. -/
theorem get_forecast_fallback_on_falsy_points_witness :
    (get_forecast ⟨.httpErr "down", fun _ => .httpErr "down", .httpErr "down"⟩).2
      = [ProviderCall.nwsPoints, ProviderCall.meteo] ∧
    (get_forecast ⟨.httpErr "down", fun _ => .httpErr "down", .httpErr "down"⟩).2.countP
      (fun c => c.isMeteo) = 1 :=
  get_forecast_fallback_on_falsy_points
    ⟨.httpErr "down", fun _ => .httpErr "down", .httpErr "down"⟩ rfl

/-- C3 counterexample: a decoded alerts response of unexpected shape (a
feature without a `properties` field) makes the `get_alerts` tool raise
`KeyError`, so an exception does escape a tool to the adapter layer. -/
theorem get_alerts_malformed_feature_raises_cex :
    get_alerts "CA" (.body (.obj [("features", .arr [.obj [("x", .null)]])]))
      = .error (.keyError "properties") :=
  rfl

/-- C3 amended: upstream outcomes in categories (a) network/transport
error and (b) non-success status (the outcomes the httpx handlers catch)
always produce a plain-text message or sentinel Failure value in every
tool, with no escaping exception; a decoded response of unexpected shape
(category (c)) can instead raise an exception that escapes the tool. -/
theorem tools_transport_failures_return_messages
    (state e d a : String) (f : Json → Upstream) :
    get_alerts state (.httpErr e) = .ok "Unable to fetch alerts or no alerts found." ∧
    (get_forecast ⟨.httpErr e, f, .httpErr e⟩).1
      = .ok "Unable to fetch forecast data from any provider." ∧
    geocode_city (.httpErr e) = .msg "Unable to geocode the provided location." ∧
    get_current_location (.httpErr e) = .ok (.str "Unable to geocode the user location.") ∧
    get_flights (.httpErr e) d a
      = .ok ("Unable to fetch flight data due to a network or API error: " ++ e) :=
  ⟨rfl, rfl, rfl, rfl, rfl⟩

/-- C4: in `get_alerts` a failed fetch or a decoded body without the
`features` container yields the unable-to-fetch message, a present but
empty `features` list yields the distinct no-active-alerts message, and
the two message strings are not equal. -/
theorem get_alerts_message_distinction :
    (∀ state e, get_alerts state (.httpErr e)
      = .ok "Unable to fetch alerts or no alerts found.") ∧
    (∀ state (kvs : List (String × Json)), kvs.lookup "features" = none →
      get_alerts state (.body (.obj kvs))
        = .ok "Unable to fetch alerts or no alerts found.") ∧
    (∀ state (kvs : List (String × Json)), kvs.lookup "features" = some (.arr []) →
      get_alerts state (.body (.obj kvs))
        = .ok "No active alerts for this state.") ∧
    "Unable to fetch alerts or no alerts found." ≠ "No active alerts for this state." := by
  refine ⟨fun state e => rfl, ?_, ?_, by decide⟩
  · intro state kvs h
    cases kvs with
    | nil => rfl
    | cons p rest =>
      simp [get_alerts, Json.truthy, Json.containsKey, h]
  · intro state kvs h
    cases kvs with
    | nil => simp at h
    | cons p rest =>
      simp [get_alerts, Json.truthy, Json.containsKey, Json.getItem, h]

/-- C4 witness: a present but empty alert list on a concrete response. -/
theorem get_alerts_message_distinction_witness :
    get_alerts "CA" (.body (.obj [("features", .arr [])]))
      = .ok "No active alerts for this state." :=
  get_alerts_message_distinction.2.2.1 "CA" [("features", .arr [])] rfl

/-- C5: on the primary path, for a forecast body whose `periods` list
renders without error, the output of `get_forecast` is exactly the
blocks of the first five periods (in the order supplied, fewer when the
provider returns fewer than five) joined with the fixed separator, so a
7-period response yields exactly `min 5 7 = 5` blocks. -/
theorem get_forecast_first_five_periods
    (ps : List Json) (url : Json) (f : Json → Upstream) (om : Upstream)
    (blocks : List String)
    (hf : f url = .body (.obj [("properties", .obj [("periods", .arr ps)])]))
    (hb : mapPy renderPeriod (ps.take 5) = .ok blocks) :
    (get_forecast ⟨.body (.obj [("properties", .obj [("forecast", url)])]), f, om⟩).1
      = .ok (String.intercalate "\n---\n" blocks) ∧
    blocks.length = min 5 ps.length := by
  constructor
  · simp [get_forecast, Json.truthy, forecastUrlOf, Json.getItem, hf,
      renderNwsForecast, pySliceTo, jsonIter, hb]
  · rw [mapPy_length renderPeriod (ps.take 5) blocks hb, List.length_take]

/-- A concrete NWS forecast period used by the C5 witness. -/
def c5period : Json :=
  .obj [("name", .str "Tonight"), ("temperature", .num 70),
        ("temperatureUnit", .str "F"), ("windSpeed", .str "5 mph"),
        ("windDirection", .str "NW"), ("detailedForecast", .str "Clear.")]

/-- Seven identical periods, as a provider returning 7 periods. -/
def c5ps : List Json := List.replicate 7 c5period

/-- The rendered block of `c5period`. -/
def c5block : String :=
  "\n    Tonight:\n    Temperature: 70°F\n    Wind: 5 mph NW\n    Forecast: Clear.\n    "

/-- The five blocks rendered from the first five of the seven periods. -/
def c5blocks : List String := List.replicate 5 c5block

/-- Detail-fetch oracle for the C5 witness. -/
def c5f : Json → Upstream :=
  fun _ => .body (.obj [("properties", .obj [("periods", .arr c5ps)])])

/-- C5 witness: a 7-period response produces exactly 5 blocks. -/
theorem get_forecast_first_five_periods_witness :
    (get_forecast ⟨.body (.obj [("properties", .obj [("forecast", .str "u")])]),
        c5f, .httpErr "down"⟩).1
      = .ok (String.intercalate "\n---\n" c5blocks) ∧
    c5blocks.length = min 5 c5ps.length :=
  get_forecast_first_five_periods c5ps (.str "u") c5f (.httpErr "down")
    c5blocks rfl rfl

/-- C6 counterexample: in a process started on 2026-10-11, a
`get_flights` call made on 2026-10-12 still uses 2026-10-11 as the
outbound date, because `TODAY_DATE` is evaluated once at module import;
the outbound date is not the calendar date at the moment of invocation. -/
theorem get_flights_outbound_date_cex :
    get_flights_outbound_date "2026-10-11" "2026-10-12" ≠ "2026-10-12" := by
  decide

/-- C6 amended: every `get_flights` call builds its request with the
calendar date of process startup (module import) as the outbound date;
the date of invocation is not consulted, so two invocations in the same
process use the same outbound date even on different calendar days. -/
theorem get_flights_outbound_date_startup (s i1 i2 k d a : String) :
    get_flights_outbound_date s i1 = TODAY_DATE s ∧
    get_flights_outbound_date s i1 = get_flights_outbound_date s i2 ∧
    (get_flights_params k (TODAY_DATE s) d a).lookup "outbound_date"
      = some (.str (TODAY_DATE s)) :=
  ⟨rfl, rfl, rfl⟩

/-- C7: with both offer buckets absent or empty, `get_flights` returns
exactly the no-flights message with the departure and arrival codes
interpolated, and this message differs from the Failure string of the
transport-error branch for every error text. -/
theorem get_flights_empty_offers_message
    (dept arr : String) (kvs : List (String × Json))
    (ho : (kvs.lookup "other_flights").getD (.arr []) = .arr [])
    (hb : (kvs.lookup "best_flights").getD (.arr []) = .arr []) :
    get_flights (.body (.obj kvs)) dept arr
      = .ok ("No active or scheduled flights found between " ++ dept
        ++ " and " ++ arr ++ " for the current real-time window.") ∧
    ∀ e, ("No active or scheduled flights found between " ++ dept
        ++ " and " ++ arr ++ " for the current real-time window.")
      ≠ ("Unable to fetch flight data due to a network or API error: " ++ e) := by
  constructor
  · simp [get_flights, Json.get, ho, hb, pyAdd, Json.truthy]
  · intro e h
    have h2 := congrArg (fun s => s.data.head?) h
    simp only [String.data_append, List.append_assoc] at h2
    have hN : ∀ (t : List Char),
        ("No active or scheduled flights found between ".data ++ t).head?
          = some 'N' := fun t => rfl
    have hU : ∀ (t : List Char),
        ("Unable to fetch flight data due to a network or API error: ".data ++ t).head?
          = some 'U' := fun t => rfl
    rw [hN, hU] at h2
    simp at h2

/-- C7 witness: a decoded body with no offer buckets at all. -/
theorem get_flights_empty_offers_message_witness :
    get_flights (.body (.obj [])) "TRN" "CDG"
      = .ok ("No active or scheduled flights found between " ++ "TRN"
        ++ " and " ++ "CDG" ++ " for the current real-time window.") :=
  (get_flights_empty_offers_message "TRN" "CDG" [] rfl rfl).1

/-- C8: `geocode_city` on a provider response with zero matches is the
unable-to-geocode Failure string; on a response with at least one match
only the first match is used, and its `lat`/`lon` fields are parsed to
numbers even when the provider supplies them as strings. -/
theorem geocode_city_zero_and_parse :
    (geocode_city (.body (.arr [])) = .msg "Unable to geocode the provided location.") ∧
    (∀ (kvs : List (String × Json)) (rest : List Json) (s t : String) (q r : Rat),
      kvs.lookup "lat" = some (.str s) → parsePyFloat s = some q →
      kvs.lookup "lon" = some (.str t) → parsePyFloat t = some r →
      geocode_city (.body (.arr (.obj kvs :: rest)))
        = .result ⟨q, r, (kvs.lookup "diplay_name").getD .null⟩) := by
  refine ⟨rfl, ?_⟩
  intro kvs rest s t q r hl hpl ho hpo
  simp [geocode_city, make_geocode_request, Json.truthy, Json.index,
    Json.getItem, Json.get, pyFloat, hl, hpl, ho, hpo]

/-- C8 witness: string coordinates `"45.07"`/`"7.69"` parse to rationals;
a second match in the list is ignored. -/
theorem geocode_city_zero_and_parse_witness :
    geocode_city (.body (.arr [.obj [("lat", .str "45.07"), ("lon", .str "7.69")],
        .obj [("lat", .str "1"), ("lon", .str "2")]]))
      = .result ⟨mkRat 4507 100, mkRat 769 100, .null⟩ :=
  geocode_city_zero_and_parse.2
    [("lat", .str "45.07"), ("lon", .str "7.69")]
    [.obj [("lat", .str "1"), ("lon", .str "2")]]
    "45.07" "7.69" (mkRat 4507 100) (mkRat 769 100)
    rfl rfl rfl rfl

/-- C9: for every successful `geocode_city` call on a response whose
first match carries the provider display-name key `display_name` (and,
as with the real provider, no key spelled `diplay_name`), the
`display_name` field of the result is `None`: the source reads the
display name through the misspelled key `diplay_name`. -/
theorem geocode_city_display_name_absent
    (kvs : List (String × Json)) (rest : List Json) (s t : String)
    (q r : Rat) (v : Json)
    (hl : kvs.lookup "lat" = some (.str s)) (hpl : parsePyFloat s = some q)
    (ho : kvs.lookup "lon" = some (.str t)) (hpo : parsePyFloat t = some r)
    (hd : kvs.lookup "diplay_name" = none)
    (_hv : kvs.lookup "display_name" = some v) :
    geocode_city (.body (.arr (.obj kvs :: rest))) = .result ⟨q, r, .null⟩ := by
  simp [geocode_city, make_geocode_request, Json.truthy, Json.index,
    Json.getItem, Json.get, pyFloat, hl, hpl, ho, hpo, hd]

/-- C9 witness: the provider supplies a display name, the result does not. -/
theorem geocode_city_display_name_absent_witness :
    geocode_city (.body (.arr [.obj [("lat", .str "45.07"), ("lon", .str "7.69"),
        ("display_name", .str "Turin, Italy")]]))
      = .result ⟨mkRat 4507 100, mkRat 769 100, .null⟩ :=
  geocode_city_display_name_absent
    [("lat", .str "45.07"), ("lon", .str "7.69"), ("display_name", .str "Turin, Italy")]
    [] "45.07" "7.69" (mkRat 4507 100) (mkRat 769 100) (.str "Turin, Italy")
    rfl rfl rfl rfl rfl rfl

/-- C10: an IP-geolocation response with status `success` and no `city`
field makes `get_current_location` return the hardcoded placeholder city
string `Antibes`, a normal (non-Failure) result. -/
theorem get_current_location_placeholder_city
    (kvs : List (String × Json))
    (hs : kvs.lookup "status" = some (.str "success"))
    (hc : kvs.lookup "city" = none) :
    get_current_location (.body (.obj kvs)) = .ok (.str "Antibes") := by
  simp [get_current_location, make_iploc_request, Json.get, hs, hc,
    Json.isStrEq, Json.truthy]
  rfl

/-- C10 witness: a success response carrying only the status field. -/
theorem get_current_location_placeholder_city_witness :
    get_current_location (.body (.obj [("status", .str "success")]))
      = .ok (.str "Antibes") :=
  get_current_location_placeholder_city [("status", .str "success")] rfl rfl

end Weather
